import Mathlib

/-!
# Expense Tracker Pro — authentication layer, shallow embedding

This file embeds the authentication data model and operations of the
Expense Tracker Pro backend (Express + Mongoose) as executable Lean
definitions, and proves properties of them claimed by the design
specification.

Embedding conventions:
* the Mongo user collection is a `List User`; single-document updates are
  modelled by mapping over the list;
* timestamps are `Nat` milliseconds (`Date.now()`);
* `bcrypt` and `sha256` are external libraries; they are modelled as
  injective tagging functions, which preserves exactly the property the
  code relies on (equality of hashes iff equality of inputs);
* JS `null`/`undefined` string fields are `Option String`; a falsy string
  value is `none` or the empty string;
* the Mongoose email `match` validator regex is embedded literally as a
  regular expression and decided with a Brzozowski-derivative matcher.
-/

namespace ExpenseTracker

/-! ## A small regular-expression matcher

Used to embed the schema's email validator
`/^\w+([.-]?\w+)*@\w+([.-]?\w+)*(\.\w\x7b2,3\x7d)+$/` exactly.  Matching is by
Brzozowski derivatives, with smart constructors to keep terms small.
-/

inductive RE where
  | emp : RE
  | eps : RE
  | cls : (Char → Bool) → RE
  | alt : RE → RE → RE
  | cat : RE → RE → RE
  | star : RE → RE

def RE.mkAlt : RE → RE → RE
  | .emp, r => r
  | r, .emp => r
  | r, s => .alt r s

def RE.mkCat : RE → RE → RE
  | .emp, _ => .emp
  | _, .emp => .emp
  | .eps, r => r
  | r, .eps => r
  | r, s => .cat r s

def RE.nullable : RE → Bool
  | .emp => false
  | .eps => true
  | .cls _ => false
  | .alt a b => a.nullable || b.nullable
  | .cat a b => a.nullable && b.nullable
  | .star _ => true

def RE.deriv : RE → Char → RE
  | .emp, _ => .emp
  | .eps, _ => .emp
  | .cls p, c => if p c then .eps else .emp
  | .alt a b, c => mkAlt (a.deriv c) (b.deriv c)
  | .cat a b, c =>
      if a.nullable then mkAlt (mkCat (a.deriv c) b) (b.deriv c)
      else mkCat (a.deriv c) b
  | .star a, c => mkCat (a.deriv c) (.star a)

/-- Anchored (whole-string) match, as the `^...$` regex in the schema. -/
def RE.rmatch (r : RE) (s : String) : Bool :=
  (s.data.foldl RE.deriv r).nullable

/-- JS `\w`: ASCII letters, digits, underscore. -/
def wordChar (c : Char) : Bool := c.isAlpha || c.isDigit || c == '_'

/-- The user schema's email validator regex,
`/^\w+([.-]?\w+)*@\w+([.-]?\w+)*(\.\w\x7b2,3\x7d)+$/` (User model, schema
field `email`). -/
def emailRegex : RE :=
  let w : RE := .cls wordChar
  let wplus : RE := .cat w (.star w)
  -- ([.-]?\w+)
  let seg : RE := .cat (.alt .eps (.cls fun c => c == '.' || c == '-')) wplus
  let name : RE := .cat wplus (.star seg)
  -- \.\w{2,3}
  let tld : RE := .cat (.cls (· == '.')) (.cat w (.cat w (.alt .eps w)))
  .cat name (.cat (.cls (· == '@')) (.cat name (.cat tld (.star tld))))

/-- `match` validation of the schema's email field. -/
def mongooseValidEmail (s : String) : Bool := emailRegex.rmatch s

/-- `createGuestUser`: `` `guest_$\x7bDate.now()\x7d@expensetracker.local` ``. -/
def guestEmail (ts : Nat) : String :=
  "guest_" ++ toString ts ++ "@expensetracker.local"

/-! ## Cryptographic primitives (external libraries)

`bcrypt.hash`/`bcrypt.compare` and `crypto.createHash('sha256')` are library
calls; the code uses them only through "hash equality iff input equality",
so they are modelled as injective tagging functions.
-/

def bcryptHash (p : String) : String := String.mk ('b' :: 'c' :: '$' :: p.data)

def sha256Hex (t : String) : String := String.mk ('s' :: 'h' :: '$' :: t.data)

/-! ## The User model (Mongoose `userSchema`)

Fields not touched by any authentication rule (phone, address, preferences,
...) are omitted; each remaining field mirrors a schema path.  `Option`
encodes a nullable path (`default: null` / `$unset`).
-/

structure User where
  id : Nat
  name : String
  email : String
  /-- stored bcrypt hash; `none` for OAuth-only and guest accounts -/
  password : Option String := none
  isEmailVerified : Bool := false
  emailVerificationToken : Option String := none
  emailVerificationExpires : Option Nat := none
  passwordResetToken : Option String := none
  passwordResetExpires : Option Nat := none
  googleId : Option String := none
  facebookId : Option String := none
  avatar : Option String := none
  lastLogin : Nat := 0
  loginAttempts : Nat := 0
  lockUntil : Option Nat := none
  isActive : Bool := true
  isGuest : Bool := false
deriving Repr, DecidableEq

/-- The user collection.  Single-document writes replace the document with
the matching `_id`. -/
abbrev Store := List User

def updateStore (store : Store) (id : Nat) (u : User) : Store :=
  store.map fun v => if v.id == id then u else v

def findByEmail (store : Store) (email : String) : Option User :=
  store.find? fun u => u.email == email

/-- Virtual `isLocked`: `!!(this.lockUntil && this.lockUntil > Date.now())`. -/
def isLocked (u : User) (now : Nat) : Bool :=
  match u.lockUntil with
  | none => false
  | some t => now < t

/-- `comparePassword`: `false` when no password is stored, otherwise
`bcrypt.compare(candidate, this.password)`. -/
def comparePassword (u : User) (candidate : String) : Bool :=
  match u.password with
  | none => false
  | some h => h == bcryptHash candidate

/-- `incLoginAttempts` (an `updateOne` against the stored document):
restart at 1 when a previous lock has expired; otherwise `$inc` the
counter, and `$set lockUntil = now + 2h` on reaching 5 failures while not
currently locked. -/
def incLoginAttempts (u : User) (now : Nat) : User :=
  match u.lockUntil with
  | some t =>
      if t < now then
        { u with lockUntil := none, loginAttempts := 1 }
      else
        let u1 := { u with loginAttempts := u.loginAttempts + 1 }
        if u.loginAttempts + 1 ≥ 5 && !(isLocked u now) then
          { u1 with lockUntil := some (now + 2 * 60 * 60 * 1000) }
        else u1
  | none =>
      let u1 := { u with loginAttempts := u.loginAttempts + 1 }
      if u.loginAttempts + 1 ≥ 5 && !(isLocked u now) then
        { u1 with lockUntil := some (now + 2 * 60 * 60 * 1000) }
      else u1

/-- `resetLoginAttempts`: `$unset` both counter and lock (the schema
defaults read the unset counter back as 0). -/
def resetLoginAttempts (u : User) : User :=
  { u with loginAttempts := 0, lockUntil := none }

/-- JS string truthiness of the `password` argument (`undefined`, `null`,
and `""` are falsy). -/
def passwordTruthy : Option String → Bool
  | none => false
  | some s => !s.isEmpty

inductive AuthError where
  | invalidCredentials
  | accountLocked
  | accountDeactivated
deriving Repr, DecidableEq

/-- The messages thrown by `findByCredentials` (surfaced verbatim by the
login route's catch branch). -/
def authErrorMessage : AuthError → String
  | .invalidCredentials => "Invalid credentials"
  | .accountLocked => "Account is temporarily locked due to too many failed login attempts"
  | .accountDeactivated => "Account is deactivated"

inductive LoginOutcome where
  | ok (u : User)
  | err (e : AuthError)
deriving Repr, DecidableEq

/-- `userSchema.statics.findByCredentials(identifier, password)`.

Returns the outcome together with the store after the document writes the
method performs (`incLoginAttempts` on a failed comparison,
`resetLoginAttempts` plus the `lastLogin` save on success).  On success
the in-memory document returned to the caller has only `lastLogin`
modified (`resetLoginAttempts` is an `updateOne`, which does not touch the
in-memory copy), while the stored document also has its counter and lock
cleared. -/
def findByCredentials (store : Store) (identifier : String) (password : Option String)
    (now : Nat) : LoginOutcome × Store :=
  let found :=
    if identifier.data.contains '@' then
      store.find? fun u => u.email == identifier
    else
      store.find? fun u => u.googleId == some identifier || u.facebookId == some identifier
  match found with
  | none => (.err .invalidCredentials, store)
  | some u =>
    if isLocked u now then (.err .accountLocked, store)
    else if !u.isActive then (.err .accountDeactivated, store)
    else if passwordTruthy password && !comparePassword u (password.getD "") then
      (.err .invalidCredentials, updateStore store u.id (incLoginAttempts u now))
    else
      let persisted :=
        if u.loginAttempts > 0 then resetLoginAttempts u else u
      let persisted := { persisted with lastLogin := now }
      let returned := { u with lastLogin := now }
      (.ok returned, updateStore store u.id persisted)

/-! ## Serialization and response sanitization

A serialized document is a key/value association list (`toObject`).  Keys
for nullable paths are present only when the path is set, as Mongoose
omits `undefined` paths.  `sanitizeUser` deletes the seven sensitive keys,
exactly as the `delete userObj.*` statements in the auth middleware do.
-/

def optField (k : String) : Option String → List (String × String)
  | none => []
  | some v => [(k, v)]

/-- Mongoose `toObject()` on a user document. -/
def toObject (u : User) : List (String × String) :=
  [("_id", toString u.id), ("name", u.name), ("email", u.email)]
  ++ optField "password" u.password
  ++ [("isEmailVerified", toString u.isEmailVerified)]
  ++ optField "emailVerificationToken" u.emailVerificationToken
  ++ optField "emailVerificationExpires" (u.emailVerificationExpires.map toString)
  ++ optField "passwordResetToken" u.passwordResetToken
  ++ optField "passwordResetExpires" (u.passwordResetExpires.map toString)
  ++ optField "googleId" u.googleId
  ++ optField "facebookId" u.facebookId
  ++ optField "avatar" u.avatar
  ++ [("lastLogin", toString u.lastLogin),
      ("loginAttempts", toString u.loginAttempts)]
  ++ optField "lockUntil" (u.lockUntil.map toString)
  ++ [("isActive", toString u.isActive), ("isGuest", toString u.isGuest)]

/-- The keys deleted by `sanitizeUser`. -/
def sensitiveKeys : List String :=
  ["password", "passwordResetToken", "passwordResetExpires",
   "emailVerificationToken", "emailVerificationExpires",
   "loginAttempts", "lockUntil"]

/-- `sanitizeUser` from the auth middleware: copy the document and delete
each sensitive key. -/
def sanitizeUser (doc : List (String × String)) : List (String × String) :=
  doc.filter fun kv => !(sensitiveKeys.contains kv.1)

/-- A serialized document is clean when none of its keys is sensitive. -/
def docClean (doc : List (String × String)) : Bool :=
  doc.all fun kv => !(sensitiveKeys.contains kv.1)

/-! ## HTTP surface

A response is modelled by its status code, its `status`/`message` body
fields, and the serialized `user` object when the body carries one (token
strings are opaque and not modelled).  Handlers that write the store
return the updated store alongside the response.

The login, forgot-password and reset-password routes run
`express-validator` chains first.  `validator.js` is an external library;
its `isEmail`/`normalizeEmail` are modelled below (every claim either uses
inputs on which any reasonable email check agrees, or applies the same
check to both sides of a comparison).
-/

structure ApiResponse where
  statusCode : Nat
  status : String
  message : String
  userDoc : Option (List (String × String)) := none
deriving Repr, DecidableEq

/-- Split a character list at every occurrence of `c`. -/
def splitAtChar (c : Char) : List Char → List (List Char)
  | [] => [[]]
  | x :: xs =>
    match splitAtChar c xs with
    | [] => [[]]
    | h :: t => if x == c then [] :: h :: t else (x :: h) :: t

/-- Modelled: `validator.js` `isEmail` (library dependency, source not in
the repository): one `'@'` separating a nonempty local part from a domain
that contains a dot. -/
def validatorIsEmail (s : String) : Bool :=
  match splitAtChar '@' s.data with
  | [localPart, domain] => !localPart.isEmpty && domain.contains '.'
  | _ => false

/-- Modelled: `validator.js` `normalizeEmail` (library dependency):
lower-cases the address. -/
def normalizeEmail (s : String) : String := String.mk (s.data.map Char.toLower)

/-- Mongoose document validation, restricted to the paths that can fail
for the documents the auth flows create: `name` and `email` required,
`email` checked against the schema regex. -/
def mongooseValidateUser (u : User) : Bool :=
  !u.name.isEmpty && !u.email.isEmpty && mongooseValidEmail u.email

/-- `POST /api/v1/auth/register`.  The handler never consults the store:
after checking that all three body fields are truthy it unconditionally
builds a demo user and answers 201 (the "Demo mode" path is the only
path in the handler). -/
def registerHandler (name email password : String) (now : Nat) : ApiResponse :=
  if name.isEmpty || email.isEmpty || password.isEmpty then
    { statusCode := 400, status := "error"
      message := "Name, email, and password are required" }
  else
    -- the demo user is a plain object; sanitizeUser spreads and deletes
    let demoDoc : List (String × String) :=
      [("_id", "demo_" ++ toString now), ("name", name), ("email", email),
       ("isEmailVerified", "true"), ("isActive", "true"),
       ("createdAt", toString now)]
    { statusCode := 201, status := "success"
      message := "Demo account created successfully! (MongoDB not connected)"
      userDoc := some (sanitizeUser demoDoc) }

/-- `POST /api/v1/auth/login`, production path (MongoDB connected):
express-validator chain, then `findByCredentials`; the catch branch maps
every thrown error to status 401 with the error's message. -/
def loginHandler (store : Store) (email password : String) (now : Nat) :
    ApiResponse × Store :=
  if !(validatorIsEmail email) || password.isEmpty then
    ({ statusCode := 400, status := "error", message := "Validation failed" }, store)
  else
    match findByCredentials store (normalizeEmail email) (some password) now with
    | (.ok u, store1) =>
        ({ statusCode := 200, status := "success", message := "Login successful"
           userDoc := some (sanitizeUser (toObject u)) }, store1)
    | (.err e, store1) =>
        ({ statusCode := 401, status := "error", message := authErrorMessage e }, store1)

/-- `userSchema.statics.createGuestUser` composed with `User.create`'s
schema validation and the email unique index. -/
def createGuestUser (store : Store) (ts : Nat) : Option User :=
  let freshId := (store.map User.id).foldr max 0 + 1
  let g : User :=
    { id := freshId, name := "Guest User", email := guestEmail ts
      isGuest := true, isEmailVerified := true, lastLogin := ts }
  if mongooseValidateUser g && !(store.any fun v => v.email == g.email) then
    some g
  else none

/-- `POST /api/v1/auth/guest`: create a guest user; any thrown error
(validation or duplicate key) lands in the catch branch as a 500. -/
def guestHandler (store : Store) (ts : Nat) : ApiResponse × Store :=
  match createGuestUser store ts with
  | some g =>
      ({ statusCode := 201, status := "success", message := "Guest access granted"
         userDoc := some (sanitizeUser (toObject g)) }, store ++ [g])
  | none =>
      ({ statusCode := 500, status := "error", message := "Guest access failed" }, store)

/-- The anti-enumeration message of the forgot-password route. -/
def forgotPasswordMessage : String :=
  "If an account with that email exists, a password reset link has been sent."

/-- `POST /api/v1/auth/forgot-password`.  `rawToken` stands for the random
bytes drawn by `createPasswordResetToken`; `emailOk` tells whether
`sendEmail` succeeds (external SMTP dependency). -/
def forgotPasswordHandler (store : Store) (email rawToken : String)
    (emailOk : Bool) (now : Nat) : ApiResponse × Store :=
  if !(validatorIsEmail email) then
    ({ statusCode := 400, status := "error", message := "Validation failed" }, store)
  else
    match findByEmail store (normalizeEmail email) with
    | none =>
        ({ statusCode := 200, status := "success", message := forgotPasswordMessage }, store)
    | some u =>
        -- createPasswordResetToken: persist sha256(token), expiry now + 10min
        let u1 := { u with passwordResetToken := some (sha256Hex rawToken)
                           passwordResetExpires := some (now + 10 * 60 * 1000) }
        let store1 := updateStore store u.id u1
        if emailOk then
          ({ statusCode := 200, status := "success", message := forgotPasswordMessage }, store1)
        else
          -- roll the token back if email dispatch failed
          let u2 := { u1 with passwordResetToken := none, passwordResetExpires := none }
          ({ statusCode := 500, status := "error"
             message := "Failed to send password reset email" },
           updateStore store1 u.id u2)

/-- The reset-password password policy: `isLength(min 8)` and the regex
`/^(?=.*[a-z])(?=.*[A-Z])(?=.*\d)(?=.*[@$!%*?&])[A-Za-z\d@$!%*?&]/`
(each lookahead scans the string; the class matches the first char). -/
def resetPasswordPolicy (s : String) : Bool :=
  let special := fun c => c == '@' || c == '$' || c == '!' || c == '%'
      || c == '*' || c == '?' || c == '&'
  s.length ≥ 8
  && s.data.any Char.isLower && s.data.any Char.isUpper
  && s.data.any Char.isDigit && s.data.any special
  && (match s.data with
      | [] => false
      | c :: _ => c.isAlpha || c.isDigit || special c)

/-- `POST /api/v1/auth/reset-password`: validate, hash the token, find a
user whose stored hash matches with an unexpired window, then set the new
password (bcrypt-hashed by the pre-save hook) and clear the reset
fields. -/
def resetPasswordHandler (store : Store) (token password : String) (now : Nat) :
    ApiResponse × Store :=
  if token.isEmpty || !(resetPasswordPolicy password) then
    ({ statusCode := 400, status := "error", message := "Validation failed" }, store)
  else
    let hashedToken := sha256Hex token
    let found := store.find? fun u =>
      u.passwordResetToken == some hashedToken
      && (match u.passwordResetExpires with
          | some e => now < e
          | none => false)
    match found with
    | none =>
        ({ statusCode := 400, status := "error"
           message := "Invalid or expired reset token" }, store)
    | some u =>
        let u1 := { u with password := some (bcryptHash password)
                           passwordResetToken := none
                           passwordResetExpires := none }
        ({ statusCode := 200, status := "success"
           message := "Password reset successfully"
           userDoc := some (sanitizeUser (toObject u1)) },
         updateStore store u.id u1)

/-- `GET /api/v1/auth/me` (after `authenticateToken` resolved the user). -/
def meHandler (u : User) : ApiResponse :=
  { statusCode := 200, status := "success", message := ""
    userDoc := some (sanitizeUser (toObject u)) }

/-- A response's user payload, when present, has no sensitive keys. -/
def respClean (r : ApiResponse) : Bool :=
  match r.userDoc with
  | none => true
  | some d => docClean d

/-! ## OAuth (passport configuration)

The provider profile is already normalized by passport; the verify
callbacks of the Google and Facebook strategies resolve it to an account.
`name` for a Facebook profile without `displayName` falls back to given +
family name; the fallback is folded into `displayName` here (profile
normalization).
-/

structure OAuthProfile where
  id : String
  displayName : String
  emails : List String
  photos : List String
deriving Repr, DecidableEq

inductive OAuthResult where
  /-- `done(null, user)` with the store after the callback's writes -/
  | ok (u : User) (store : Store)
  /-- `done(error, null)` (thrown validation / duplicate-key / type error) -/
  | err
deriving Repr, DecidableEq

def freshId (store : Store) : Nat := (store.map User.id).foldr max 0 + 1

/-- `profile.photos[0]?.value || user.avatar`. -/
def mergeAvatar (photos : List String) (old : Option String) : Option String :=
  match photos.head? with
  | some a => some a
  | none => old

/-- The Google strategy's verify callback: lookup by `googleId`; else by
`profile.emails[0].value` (accessing it throws when `emails` is empty),
linking the Google id and marking the email verified; else create a new
user (`save()` runs schema validation). -/
def googleVerify (store : Store) (p : OAuthProfile) (now : Nat) : OAuthResult :=
  match store.find? (fun u => u.googleId == some p.id) with
  | some u =>
      let u1 := { u with lastLogin := now }
      .ok u1 (updateStore store u.id u1)
  | none =>
    match p.emails with
    | [] => .err
    | email :: _ =>
      match store.find? (fun u => u.email == email) with
      | some u =>
          let u1 := { u with googleId := some p.id
                             avatar := mergeAvatar p.photos u.avatar
                             isEmailVerified := true, lastLogin := now }
          .ok u1 (updateStore store u.id u1)
      | none =>
          let g : User :=
            { id := freshId store, name := p.displayName, email := email
              googleId := some p.id, avatar := p.photos.head?
              isEmailVerified := true, lastLogin := now }
          if mongooseValidateUser g then .ok g (store ++ [g]) else .err

/-- The Facebook strategy's verify callback: lookup by `facebookId`; else,
only when the profile carries an email, by that email (linking); else
create, with a synthetic `facebook_<id>@facebook.local` email and
`isEmailVerified=false` when the profile has no email. -/
def facebookVerify (store : Store) (p : OAuthProfile) (now : Nat) : OAuthResult :=
  match store.find? (fun u => u.facebookId == some p.id) with
  | some u =>
      let u1 := { u with lastLogin := now }
      .ok u1 (updateStore store u.id u1)
  | none =>
    match p.emails with
    | email :: _ =>
      match store.find? (fun u => u.email == email) with
      | some u =>
          let u1 := { u with facebookId := some p.id
                             avatar := mergeAvatar p.photos u.avatar
                             isEmailVerified := true, lastLogin := now }
          .ok u1 (updateStore store u.id u1)
      | none =>
          let f : User :=
            { id := freshId store, name := p.displayName, email := email
              facebookId := some p.id, avatar := p.photos.head?
              isEmailVerified := true, lastLogin := now }
          if mongooseValidateUser f then .ok f (store ++ [f]) else .err
    | [] =>
        let f : User :=
          { id := freshId store, name := p.displayName
            email := "facebook_" ++ p.id ++ "@facebook.local"
            facebookId := some p.id, avatar := p.photos.head?
            isEmailVerified := false, lastLogin := now }
        if mongooseValidateUser f then .ok f (store ++ [f]) else .err

/-- Written from the spec's words, to be compared with the code: "looks up
by provider id first; if absent, looks up by the profile's email to link
the provider to an existing account (setting `isEmailVerified=true` since
the provider is trusted); if no match on either, creates a new
account." -/
def specThreeTierResolution (providerMatch : User → Bool) (profileEmail : Option String)
    (touch link : User → User) (create : OAuthResult) (store : Store) : OAuthResult :=
  match store.find? providerMatch with
  | some u => .ok (touch u) (updateStore store u.id (touch u))
  | none =>
    match profileEmail.bind (fun e => store.find? fun u => u.email == e) with
    | some u =>
        let linked := { link u with isEmailVerified := true }
        .ok linked (updateStore store u.id linked)
    | none => create

/-- Spec-side tier-1 update: refresh `lastLogin`. -/
def oauthTouch (now : Nat) (u : User) : User := { u with lastLogin := now }

/-- Spec-side tier-2 update for Google (the resolver itself forces
`isEmailVerified := true`). -/
def googleLinkUpdate (p : OAuthProfile) (now : Nat) (u : User) : User :=
  { u with googleId := some p.id, avatar := mergeAvatar p.photos u.avatar
           lastLogin := now }

/-- Spec-side tier-2 update for Facebook. -/
def facebookLinkUpdate (p : OAuthProfile) (now : Nat) (u : User) : User :=
  { u with facebookId := some p.id, avatar := mergeAvatar p.photos u.avatar
           lastLogin := now }

/-- Spec-side tier-3 result for Google. -/
def googleCreate (store : Store) (p : OAuthProfile) (now : Nat) : OAuthResult :=
  match p.emails with
  | [] => .err
  | email :: _ =>
      let g : User :=
        { id := freshId store, name := p.displayName, email := email
          googleId := some p.id, avatar := p.photos.head?
          isEmailVerified := true, lastLogin := now }
      if mongooseValidateUser g then .ok g (store ++ [g]) else .err

/-- Spec-side tier-3 result for Facebook. -/
def facebookCreate (store : Store) (p : OAuthProfile) (now : Nat) : OAuthResult :=
  match p.emails with
  | email :: _ =>
      let f : User :=
        { id := freshId store, name := p.displayName, email := email
          facebookId := some p.id, avatar := p.photos.head?
          isEmailVerified := true, lastLogin := now }
      if mongooseValidateUser f then .ok f (store ++ [f]) else .err
  | [] =>
      let f : User :=
        { id := freshId store, name := p.displayName
          email := "facebook_" ++ p.id ++ "@facebook.local"
          facebookId := some p.id, avatar := p.photos.head?
          isEmailVerified := false, lastLogin := now }
      if mongooseValidateUser f then .ok f (store ++ [f]) else .err

/-! ## Login scenario runner -/

/-- Run a sequence of login calls against the same identifier, collecting
each call's outcome and threading the store. -/
def loginRun (store : Store) (identifier : String) (password : Option String)
    (times : List Nat) : List LoginOutcome × Store :=
  times.foldl
    (fun acc t =>
      let r := findByCredentials acc.2 identifier password t
      (acc.1 ++ [r.1], r.2))
    ([], store)

/-! ## Concrete fixtures (used by witnesses and counterexamples) -/

def aliceUser : User :=
  { id := 1, name := "Alice", email := "alice@example.com"
    password := some (bcryptHash "Goodpass1!") }

def lockedUser : User :=
  { id := 1, name := "Alice", email := "alice@example.com"
    password := some (bcryptHash "Goodpass1!")
    loginAttempts := 5, lockUntil := some 10000000 }

def resetUser : User :=
  { id := 2, name := "Bob", email := "bob@example.com"
    password := some (bcryptHash "Oldpass1!")
    passwordResetToken := some (sha256Hex "tok0")
    passwordResetExpires := some 10 }

def carolUser : User :=
  { id := 3, name := "Carol", email := "carol@mail.com" }

def idleUser : User :=
  { id := 4, name := "Dan", email := "dan@example.io", loginAttempts := 3 }

def oauthP0 : OAuthProfile :=
  { id := "g1", displayName := "Dave", emails := ["dave@mail.com"], photos := [] }

/-! # Theorems -/

theorem bcryptHash_inj {p q : String} (h : bcryptHash p = bcryptHash q) : p = q := by
  apply String.ext
  have hd := congrArg String.data h
  simpa [bcryptHash] using hd

theorem sha256Hex_inj {p q : String} (h : sha256Hex p = sha256Hex q) : p = q := by
  apply String.ext
  have hd := congrArg String.data h
  simpa [sha256Hex] using hd

theorem docClean_sanitizeUser (d : List (String × String)) :
    docClean (sanitizeUser d) = true := by
  unfold docClean sanitizeUser
  rw [List.all_eq_true]
  intro kv hkv
  exact (List.mem_filter.mp hkv).2

/-- C3: every response path that returns a user object (register, login,
guest, reset-password, /me — and forgot-password, which returns none)
passes it through `sanitizeUser`, so the serialized user never contains
the password hash, the reset token hash/expiry, or the verification token
hash/expiry. -/
theorem responses_never_leak_sensitive_fields
    (rname remail rpw : String) (now ts : Nat) (store : Store)
    (lemail lpw femail frawTok rtok rpw2 : String) (emailOk : Bool) (u : User) :
    respClean (registerHandler rname remail rpw now) = true
    ∧ respClean (loginHandler store lemail lpw now).1 = true
    ∧ respClean (guestHandler store ts).1 = true
    ∧ respClean (forgotPasswordHandler store femail frawTok emailOk now).1 = true
    ∧ respClean (resetPasswordHandler store rtok rpw2 now).1 = true
    ∧ respClean (meHandler u) = true := by
  refine ⟨?_, ?_, ?_, ?_, ?_, ?_⟩
  · unfold registerHandler
    split <;> simp [respClean, docClean_sanitizeUser]
  · unfold loginHandler
    split
    · simp [respClean]
    · split <;> simp [respClean, docClean_sanitizeUser]
  · unfold guestHandler
    split <;> simp [respClean, docClean_sanitizeUser]
  · unfold forgotPasswordHandler
    split
    · simp [respClean]
    · split
      · simp [respClean]
      · split <;> simp [respClean]
  · unfold resetPasswordHandler
    split
    · simp [respClean]
    · dsimp only
      split <;> simp [respClean, docClean_sanitizeUser]
  · simp [meHandler, respClean, docClean_sanitizeUser]

/-- C2 (code bug): the register route is an unconditional demo-mode stub.
It never consults the store (its type does not even take one), so with any
truthy `name`/`email`/`password` — including an already-registered email,
a malformed email, or a one-character password — it answers 201 success
instead of `DuplicateEmail`/`ValidationError`. -/
theorem register_is_a_demo_stub
    (name email password : String) (now : Nat)
    (hn : name.isEmpty = false) (he : email.isEmpty = false)
    (hp : password.isEmpty = false) :
    registerHandler name email password now
      = { statusCode := 201, status := "success"
          message := "Demo account created successfully! (MongoDB not connected)"
          userDoc := some (sanitizeUser
            [("_id", "demo_" ++ toString now), ("name", name), ("email", email),
             ("isEmailVerified", "true"), ("isActive", "true"),
             ("createdAt", toString now)]) } := by
  unfold registerHandler
  simp [hn, he, hp]

theorem register_is_a_demo_stub_witness :
    registerHandler "A" "taken@example.com" "x" 7
      = { statusCode := 201, status := "success"
          message := "Demo account created successfully! (MongoDB not connected)"
          userDoc := some (sanitizeUser
            [("_id", "demo_7"), ("name", "A"), ("email", "taken@example.com"),
             ("isEmailVerified", "true"), ("isActive", "true"),
             ("createdAt", "7")]) } :=
  register_is_a_demo_stub "A" "taken@example.com" "x" 7 rfl rfl rfl

/-- C8 (code bug): the synthesized guest email ends in `.local`, whose
5-character final label can never match the schema email regex's
`(\.\w\x7b2,3\x7d)+$` tail, so `User.create` inside `createGuestUser` throws a
validation error and `POST /auth/guest` answers 500 without creating any
user — no two usable guest accounts are ever produced. -/
theorem guest_email_fails_schema_validation :
    mongooseValidEmail (guestEmail 1700000000000) = false
    ∧ guestHandler [] 1700000000000
      = ({ statusCode := 500, status := "error", message := "Guest access failed" }, []) := by
  constructor
  · decide
  · decide

/-- C4 (counterexample): logging into a locked account with the correct
password is answered with HTTP 401, not the claimed 403 — the login
route's catch branch maps every thrown error to 401. -/
theorem login_locked_returns_401_not_403 :
    (loginHandler [lockedUser] "alice@example.com" "Goodpass1!" 0).1.statusCode = 401
    ∧ (loginHandler [lockedUser] "alice@example.com" "Goodpass1!" 0).1.statusCode ≠ 403 := by
  constructor
  · decide
  · decide

/-- C4 (amended): every login failure — unknown email, wrong password,
locked account, deactivated account — is surfaced with HTTP 401; the
cause is distinguished only by the message text. -/
theorem login_failures_all_map_to_401
    (store : Store) (email password : String) (now : Nat)
    (e : AuthError) (st : Store)
    (hv : validatorIsEmail email = true) (hp : password.isEmpty = false)
    (h : findByCredentials store (normalizeEmail email) (some password) now
          = (.err e, st)) :
    loginHandler store email password now
      = ({ statusCode := 401, status := "error", message := authErrorMessage e }, st) := by
  unfold loginHandler
  simp [hv, hp, h]

theorem login_failures_all_map_to_401_witness :
    loginHandler [lockedUser] "alice@example.com" "Goodpass1!" 0
      = ({ statusCode := 401, status := "error"
           message := authErrorMessage .accountLocked }, [lockedUser]) :=
  login_failures_all_map_to_401 [lockedUser] "alice@example.com" "Goodpass1!" 0
    .accountLocked [lockedUser] (by decide) (by decide) (by decide)

/-- C6: with email dispatch succeeding, the forgot-password responses for
an email that exists in the store and for one that does not are
identical — same status code, same body, no user payload. -/
theorem forgot_password_no_enumeration
    (store : Store) (u : User) (existingEmail missingEmail rawTok : String) (now : Nat)
    (hvE : validatorIsEmail existingEmail = true)
    (hvN : validatorIsEmail missingEmail = true)
    (hE : findByEmail store (normalizeEmail existingEmail) = some u)
    (hN : findByEmail store (normalizeEmail missingEmail) = none) :
    (forgotPasswordHandler store existingEmail rawTok true now).1
      = (forgotPasswordHandler store missingEmail rawTok true now).1 := by
  unfold forgotPasswordHandler
  simp [hvE, hvN, hE, hN]

theorem forgot_password_no_enumeration_witness :
    (forgotPasswordHandler [carolUser] "carol@mail.com" "tokA" true 5).1
      = (forgotPasswordHandler [carolUser] "nobody@mail.com" "tokA" true 5).1 :=
  forgot_password_no_enumeration [carolUser] carolUser
    "carol@mail.com" "nobody@mail.com" "tokA" 5
    (by decide) (by decide) (by decide) (by decide)

/-- C7: when email dispatch fails, the just-persisted reset token hash and
expiry are rolled back to null, so the account is not left with a
dangling undelivered token. -/
theorem forgot_password_rollback_on_email_failure
    (u : User) (email rawTok : String) (now : Nat)
    (hv : validatorIsEmail email = true)
    (hE : findByEmail [u] (normalizeEmail email) = some u) :
    forgotPasswordHandler [u] email rawTok false now
      = ({ statusCode := 500, status := "error"
           message := "Failed to send password reset email" },
         [{ u with passwordResetToken := none, passwordResetExpires := none }]) := by
  unfold forgotPasswordHandler
  simp [hv, hE, updateStore]

theorem forgot_password_rollback_on_email_failure_witness :
    forgotPasswordHandler [carolUser] "carol@mail.com" "tokA" false 5
      = ({ statusCode := 500, status := "error"
           message := "Failed to send password reset email" },
         [{ carolUser with passwordResetToken := none, passwordResetExpires := none }]) :=
  forgot_password_rollback_on_email_failure carolUser "carol@mail.com" "tokA" 5
    (by decide) (by decide)

/-- C10: for an active, unlocked stored account, `findByCredentials` with
a falsy password (null/undefined/empty string) succeeds without any
password comparison — the stored hash is arbitrary, even absent — and the
persisted login-attempt counter ends at 0. -/
theorem falsy_password_skips_verification
    (u : User) (password : Option String) (now : Nat)
    (hemail : u.email.data.contains '@' = true)
    (hfalsy : passwordTruthy password = false)
    (hlock : isLocked u now = false)
    (hactive : u.isActive = true) :
    findByCredentials [u] u.email password now
      = (.ok { u with lastLogin := now },
         [if u.loginAttempts > 0
          then { u with loginAttempts := 0, lockUntil := none, lastLogin := now }
          else { u with lastLogin := now }])
    ∧ (findByCredentials [u] u.email password now).2.map User.loginAttempts = [0] := by
  have hmem : '@' ∈ u.email.data := by simpa using hemail
  have hmain : findByCredentials [u] u.email password now
      = (.ok { u with lastLogin := now },
         [if u.loginAttempts > 0
          then { u with loginAttempts := 0, lockUntil := none, lastLogin := now }
          else { u with lastLogin := now }]) := by
    unfold findByCredentials
    by_cases hA : u.loginAttempts > 0 <;>
      simp [hmem, hlock, hactive, hfalsy, hA, updateStore, resetLoginAttempts]
  refine ⟨hmain, ?_⟩
  rw [hmain]
  by_cases hA : u.loginAttempts > 0
  · simp [hA]
  · simp [hA]
    omega

theorem falsy_password_skips_verification_witness :
    (findByCredentials [idleUser] idleUser.email (some "") 99
      = (.ok { idleUser with lastLogin := 99 },
         [if idleUser.loginAttempts > 0
          then { idleUser with loginAttempts := 0, lockUntil := none, lastLogin := 99 }
          else { idleUser with lastLogin := 99 }]))
    ∧ (findByCredentials [idleUser] idleUser.email (some "") 99).2.map User.loginAttempts
        = [0] :=
  falsy_password_skips_verification idleUser (some "") 99
    (by decide) (by decide) (by decide) (by decide)

/-- C5: resetting with a token whose stored expiry is past fails with the
invalid-or-expired error and changes no stored state; with an unexpired
token it succeeds, clears the reset fields and stores the new password
hash, and the same token then fails on a second call (single use). -/
theorem reset_password_single_use
    (u : User) (tok newPw : String) (e now now2 : Nat)
    (ht : tok.isEmpty = false) (hp : resetPasswordPolicy newPw = true)
    (htok : u.passwordResetToken = some (sha256Hex tok))
    (hexp : u.passwordResetExpires = some e) :
    (e ≤ now →
      resetPasswordHandler [u] tok newPw now
        = ({ statusCode := 400, status := "error"
             message := "Invalid or expired reset token" }, [u]))
    ∧ (now < e →
      resetPasswordHandler [u] tok newPw now
        = ({ statusCode := 200, status := "success"
             message := "Password reset successfully"
             userDoc := some (sanitizeUser (toObject
               { u with password := some (bcryptHash newPw)
                        passwordResetToken := none
                        passwordResetExpires := none })) },
           [{ u with password := some (bcryptHash newPw)
                     passwordResetToken := none
                     passwordResetExpires := none }])
      ∧ resetPasswordHandler
          [{ u with password := some (bcryptHash newPw)
                    passwordResetToken := none
                    passwordResetExpires := none }]
          tok newPw now2
        = ({ statusCode := 400, status := "error"
             message := "Invalid or expired reset token" },
           [{ u with password := some (bcryptHash newPw)
                     passwordResetToken := none
                     passwordResetExpires := none }])) := by
  constructor
  · intro hle
    have hnl : ¬ (now < e) := not_lt.mpr hle
    unfold resetPasswordHandler
    simp [ht, hp, htok, hexp, hnl]
  · intro hlt
    constructor
    · unfold resetPasswordHandler
      simp [ht, hp, htok, hexp, hlt, updateStore]
    · unfold resetPasswordHandler
      simp [ht, hp]

theorem reset_password_single_use_witness :
    (resetPasswordHandler [resetUser] "tok0" "Abcdef1!" 12
      = ({ statusCode := 400, status := "error"
           message := "Invalid or expired reset token" }, [resetUser]))
    ∧ (resetPasswordHandler [resetUser] "tok0" "Abcdef1!" 3
        = ({ statusCode := 200, status := "success"
             message := "Password reset successfully"
             userDoc := some (sanitizeUser (toObject
               { resetUser with password := some (bcryptHash "Abcdef1!")
                                passwordResetToken := none
                                passwordResetExpires := none })) },
           [{ resetUser with password := some (bcryptHash "Abcdef1!")
                             passwordResetToken := none
                             passwordResetExpires := none }])
      ∧ resetPasswordHandler
          [{ resetUser with password := some (bcryptHash "Abcdef1!")
                            passwordResetToken := none
                            passwordResetExpires := none }]
          "tok0" "Abcdef1!" 20
        = ({ statusCode := 400, status := "error"
             message := "Invalid or expired reset token" },
           [{ resetUser with password := some (bcryptHash "Abcdef1!")
                             passwordResetToken := none
                             passwordResetExpires := none }])) :=
  ⟨(reset_password_single_use resetUser "tok0" "Abcdef1!" 10 12 20
      rfl (by decide) rfl rfl).1 (by decide),
   (reset_password_single_use resetUser "tok0" "Abcdef1!" 10 3 20
      rfl (by decide) rfl rfl).2 (by decide)⟩

/-- C9: both OAuth verify callbacks resolve the account exactly as the
spec's three-tier description: lookup by provider id first; on a miss,
lookup by the profile email and link the provider id (with
`isEmailVerified` forced to true); on a second miss, create a new
account.  (A Google profile must carry an email: the callback throws on
an empty `emails` array before tier two.) -/
theorem oauth_resolution_three_tier
    (store : Store) (p : OAuthProfile) (now : Nat)
    (hg : p.emails ≠ []) :
    googleVerify store p now
      = specThreeTierResolution (fun u => u.googleId == some p.id) p.emails.head?
          (oauthTouch now) (googleLinkUpdate p now) (googleCreate store p now) store
    ∧ facebookVerify store p now
      = specThreeTierResolution (fun u => u.facebookId == some p.id) p.emails.head?
          (oauthTouch now) (facebookLinkUpdate p now) (facebookCreate store p now) store := by
  constructor
  · unfold googleVerify specThreeTierResolution googleCreate oauthTouch googleLinkUpdate
    cases hfind : store.find? (fun u => u.googleId == some p.id) with
    | some u => simp [hfind]
    | none =>
      cases hpe : p.emails with
      | nil => exact absurd hpe hg
      | cons em es =>
        simp only [hfind, hpe, List.head?]
        cases hfe : store.find? (fun u => u.email == em) with
        | some u => simp [hfe]
        | none => simp [hfe]
  · unfold facebookVerify specThreeTierResolution facebookCreate oauthTouch facebookLinkUpdate
    cases hfind : store.find? (fun u => u.facebookId == some p.id) with
    | some u => simp [hfind]
    | none =>
      cases hpe : p.emails with
      | nil => simp [hpe]
      | cons em es =>
        simp only [hfind, hpe, List.head?]
        cases hfe : store.find? (fun u => u.email == em) with
        | some u => simp [hfe]
        | none => simp [hfe]

theorem oauth_resolution_three_tier_witness :
    googleVerify [] oauthP0 9
      = specThreeTierResolution (fun u => u.googleId == some oauthP0.id) oauthP0.emails.head?
          (oauthTouch 9) (googleLinkUpdate oauthP0 9) (googleCreate [] oauthP0 9) []
    ∧ facebookVerify [] oauthP0 9
      = specThreeTierResolution (fun u => u.facebookId == some oauthP0.id) oauthP0.emails.head?
          (oauthTouch 9) (facebookLinkUpdate oauthP0 9) (facebookCreate [] oauthP0 9) [] :=
  oauth_resolution_three_tier [] oauthP0 9 (by decide)

/-- A single failed login attempt against an unlocked active account: the
outcome is `invalidCredentials` and the stored document gets
`incLoginAttempts`. -/
theorem failed_login_attempt
    (u : User) (idf w : String) (now : Nat)
    (hid : u.email = idf) (hmem : '@' ∈ idf.data)
    (hw : w.isEmpty = false)
    (hcmp : comparePassword u w = false)
    (hlock : u.lockUntil = none)
    (hactive : u.isActive = true) :
    findByCredentials [u] idf (some w) now
      = (.err .invalidCredentials, [incLoginAttempts u now]) := by
  unfold findByCredentials
  simp [hid, hmem, isLocked, hlock, hactive, passwordTruthy, hw, hcmp, updateStore]

/-- C1: five failed logins with the correct email and a wrong password
each fail with `invalidCredentials` and the fifth sets
`lockUntil = t5 + 2h`; the sixth call, with the correct password but
inside the window, fails with `accountLocked`; a call after the window
with the correct password succeeds and the persisted failure counter is
reset to 0 (and the lock cleared). -/
theorem lockout_after_five_failed_attempts
    (u : User) (wrong correct : String)
    (t1 t2 t3 t4 t5 t6 t7 : Nat)
    (hmem : '@' ∈ u.email.data)
    (hpw : u.password = some (bcryptHash correct))
    (hne : wrong ≠ correct)
    (hw : wrong.isEmpty = false) (hc : correct.isEmpty = false)
    (hatt : u.loginAttempts = 0) (hlock : u.lockUntil = none)
    (hactive : u.isActive = true)
    (h6 : t6 < t5 + 7200000) (h7 : t5 + 7200000 ≤ t7) :
    loginRun [u] u.email (some wrong) [t1, t2, t3, t4, t5]
      = ([.err .invalidCredentials, .err .invalidCredentials, .err .invalidCredentials,
          .err .invalidCredentials, .err .invalidCredentials],
         [{ u with loginAttempts := 5, lockUntil := some (t5 + 7200000) }])
    ∧ findByCredentials [{ u with loginAttempts := 5, lockUntil := some (t5 + 7200000) }]
        u.email (some correct) t6
      = (.err .accountLocked,
         [{ u with loginAttempts := 5, lockUntil := some (t5 + 7200000) }])
    ∧ findByCredentials [{ u with loginAttempts := 5, lockUntil := some (t5 + 7200000) }]
        u.email (some correct) t7
      = (.ok { u with loginAttempts := 5, lockUntil := some (t5 + 7200000), lastLogin := t7 },
         [{ u with loginAttempts := 0, lockUntil := none, lastLogin := t7 }]) := by
  have hcmpW : comparePassword u wrong = false := by
    rw [comparePassword, hpw]
    exact beq_eq_false_iff_ne.mpr fun h => hne (bcryptHash_inj h).symm
  have s1 : findByCredentials [u] u.email (some wrong) t1
      = (.err .invalidCredentials, [{ u with loginAttempts := 1 }]) := by
    rw [failed_login_attempt u u.email wrong t1 rfl hmem hw hcmpW hlock hactive]
    simp [incLoginAttempts, hlock, hatt]
  have s2 : findByCredentials [{ u with loginAttempts := 1 }] u.email (some wrong) t2
      = (.err .invalidCredentials, [{ u with loginAttempts := 2 }]) := by
    rw [failed_login_attempt { u with loginAttempts := 1 } u.email wrong t2
          rfl hmem hw hcmpW hlock hactive]
    simp [incLoginAttempts, hlock]
  have s3 : findByCredentials [{ u with loginAttempts := 2 }] u.email (some wrong) t3
      = (.err .invalidCredentials, [{ u with loginAttempts := 3 }]) := by
    rw [failed_login_attempt { u with loginAttempts := 2 } u.email wrong t3
          rfl hmem hw hcmpW hlock hactive]
    simp [incLoginAttempts, hlock]
  have s4 : findByCredentials [{ u with loginAttempts := 3 }] u.email (some wrong) t4
      = (.err .invalidCredentials, [{ u with loginAttempts := 4 }]) := by
    rw [failed_login_attempt { u with loginAttempts := 3 } u.email wrong t4
          rfl hmem hw hcmpW hlock hactive]
    simp [incLoginAttempts, hlock]
  have s5 : findByCredentials [{ u with loginAttempts := 4 }] u.email (some wrong) t5
      = (.err .invalidCredentials,
         [{ u with loginAttempts := 5, lockUntil := some (t5 + 7200000) }]) := by
    rw [failed_login_attempt { u with loginAttempts := 4 } u.email wrong t5
          rfl hmem hw hcmpW hlock hactive]
    simp [incLoginAttempts, hlock, isLocked]
  refine ⟨?_, ?_, ?_⟩
  · simp [loginRun, s1, s2, s3, s4, s5]
  · unfold findByCredentials
    simp [hmem, isLocked, h6]
  · have hnl : ¬ (t7 < t5 + 7200000) := not_lt.mpr h7
    unfold findByCredentials
    simp [hmem, isLocked, hnl, hactive, passwordTruthy, hc, comparePassword, hpw,
          updateStore, resetLoginAttempts]

theorem lockout_after_five_failed_attempts_witness :
    loginRun [aliceUser] aliceUser.email (some "bad!") [1, 2, 3, 4, 5]
      = ([.err .invalidCredentials, .err .invalidCredentials, .err .invalidCredentials,
          .err .invalidCredentials, .err .invalidCredentials],
         [{ aliceUser with loginAttempts := 5, lockUntil := some (5 + 7200000) }])
    ∧ findByCredentials [{ aliceUser with loginAttempts := 5, lockUntil := some (5 + 7200000) }]
        aliceUser.email (some "Goodpass1!") 100
      = (.err .accountLocked,
         [{ aliceUser with loginAttempts := 5, lockUntil := some (5 + 7200000) }])
    ∧ findByCredentials [{ aliceUser with loginAttempts := 5, lockUntil := some (5 + 7200000) }]
        aliceUser.email (some "Goodpass1!") 7200005
      = (.ok { aliceUser with loginAttempts := 5, lockUntil := some (5 + 7200000)
                              lastLogin := 7200005 },
         [{ aliceUser with loginAttempts := 0, lockUntil := none, lastLogin := 7200005 }]) :=
  lockout_after_five_failed_attempts aliceUser "bad!" "Goodpass1!" 1 2 3 4 5 100 7200005
    (by decide) rfl (by decide) rfl rfl rfl rfl rfl (by decide) (by decide)

end ExpenseTracker
